import Mathlib

/-!
Verification of the adaptive-streaming `SegmentTracker`
(modules/demux/adaptive/SegmentTracker.cpp).

Shallow embedding: representations and all external collaborators
(adaptation logic, buffering logic, segment resolution, format sniffing)
are modelled as pure functions in an `Env` record.  External mutable
state (playlist refreshes performed by `runLocalUpdates`) is modelled by
a world counter `w : Nat` threaded through the tracker state: every
environment query takes the current world, and each call to
`runLocalUpdates` advances the world by one, so a refresh may change
what later queries return.  Machine integers (`uint64_t`) are `Nat`
with explicit wrap-around at `2 ^ 64`; `mtime_t` is `Int`.  Events sent
to listeners by `notify` are accumulated in a list, in emission order.
-/

/-- Representation identity (the code uses `BaseRepresentation *`;
pointers are modelled by identifiers, null by `Option`). -/
abbrev RepId := Nat

/-- Segment identity (`ISegment *`). -/
abbrev Segment := Nat

/-- `std::numeric_limits<uint64_t>::max()`, the "unset" sentinel. -/
def U64MAX : Nat := 2 ^ 64 - 1

/-- `VLC_TS_INVALID` (0). -/
def VLC_TS_INVALID : Int := 0

/-- `VLC_TS_0` (1). -/
def VLC_TS_0 : Int := 1

/-- `StreamFormat`: the `Unknown` / `Unsupported` tags plus concrete
container formats, abstracted by a numeric tag. -/
inductive SFormat where
  | Unknown : SFormat
  | Unsupported : SFormat
  | Known : Nat → SFormat
deriving DecidableEq, Repr, Inhabited

/-- `SegmentTracker::Position`: representation, segment number and the
init/index stage flags. -/
structure Position where
  rep : Option RepId
  number : Nat
  init_sent : Bool
  index_sent : Bool
deriving DecidableEq, Repr, Inhabited

/-- The default-constructed `Position()`: sentinel number, null rep,
both flags false. -/
def Position.invalid : Position :=
  { rep := none, number := U64MAX, init_sent := false, index_sent := false }

/-- `Position::Position(rep, number)`. -/
def Position.mkPos (r : Option RepId) (n : Nat) : Position :=
  { rep := r, number := n, init_sent := false, index_sent := false }

/-- `Position::isValid`: number is not the sentinel and rep is non-null. -/
def Position.isValid (p : Position) : Bool :=
  decide (p.number ≠ U64MAX) && p.rep.isSome

/-- `Position::operator++`: on a valid position, first set `init_sent`,
then set `index_sent`, then increment the (64-bit) segment number;
no-op on an invalid position. -/
def Position.inc (p : Position) : Position :=
  if p.isValid = true then
    if p.index_sent = true then { p with number := (p.number + 1) % 2 ^ 64 }
    else if p.init_sent = true then { p with index_sent := true }
    else { p with init_sent := true }
  else p

/-- `SegmentChunk` as seen by the tracker: discontinuity flag and
sequence number, the declared/cached stream format (mutable slot read
by `getStreamFormat`, written by `setStreamFormat`), the declared
content type, and the leading bytes a `ProbeableChunk` can peek. -/
structure Chunk where
  discontinuity : Bool
  discontinuitySequenceNumber : Nat
  streamFormat : SFormat
  contentType : String
  peekBytes : List Nat
deriving DecidableEq, Repr, Inhabited

/-- `SegmentTracker::ChunkEntry`. -/
structure ChunkEntry where
  chunk : Option Chunk
  pos : Position
  starttime : Int
  duration : Int
  displaytime : Int
deriving DecidableEq, Repr, Inhabited

/-- The default-constructed `ChunkEntry()`: null chunk, default position. -/
def ChunkEntry.empty : ChunkEntry :=
  { chunk := none, pos := Position.invalid, starttime := 0, duration := 0, displaytime := 0 }

/-- `ChunkEntry::isValid`: chunk non-null and position valid. -/
def ChunkEntry.isValid (e : ChunkEntry) : Bool :=
  e.chunk.isSome && e.pos.isValid

/-- What `getNextChunk` hands back: the chunk, possibly wrapped in a
`ProbeableChunk` (`wrapped`), with its format slot possibly updated. -/
structure RChunk where
  wrapped : Bool
  chunk : Chunk
deriving DecidableEq, Repr, Inhabited

/-- The `TrackerEvent` hierarchy, restricted to the payloads the
tracker emits in the verified code paths. -/
inductive Event where
  | Discontinuity : Nat → Event
  | SegmentGap : Event
  | RepresentationSwitch : Option RepId → Option RepId → Event
  | RepresentationUpdated : RepId → Event
  | RepresentationUpdateFailed : RepId → Event
  | FormatChanged : SFormat → Event
  | SegmentChanged : Nat → Nat → Int → Int → Int → Event
  | PositionChanged : Int → Event
deriving DecidableEq, Repr

/-- Recognise a `FormatChanged` event (for emission counting). -/
def isFormatChangedEv : Event → Bool
  | Event.FormatChanged _ => true
  | _ => false

/-- Recognise a `Discontinuity` event. -/
def isDiscontinuityEv : Event → Bool
  | Event.Discontinuity _ => true
  | _ => false

/-- The external collaborators, as world-indexed pure functions.  The
first `Nat` argument of the stateful queries is the world counter. -/
structure Env where
  /-- `adaptationSet->isSegmentAligned()` -/
  isSegmentAligned : Bool
  /-- `adaptationSet->getID()` -/
  adaptationSetId : Nat
  /-- `logic->getNextRepresentation(adaptationSet, cur)` -/
  getNextRepresentation : Option RepId → Option RepId
  /-- `rep->needsUpdate(number)` -/
  needsUpdate : Nat → RepId → Nat → Bool
  /-- `rep->runLocalUpdates(resources)`: did the refresh succeed -/
  runLocalUpdates : Nat → RepId → Bool
  /-- `toRep->translateSegmentNumber(number, fromRep)`; `U64MAX` = failure -/
  translateSegmentNumber : Nat → RepId → Nat → Option RepId → Nat
  /-- `rep->getMinAheadTime(number)` -/
  getMinAheadTime : Nat → RepId → Nat → Nat
  /-- `rep->getNextMediaSegment(number, &number, &gap)`:
  segment, corrected number, and the (unused-by-the-tracker) gap flag -/
  getNextMediaSegment : Nat → RepId → Nat → Option (Segment × Nat × Bool)
  /-- `rep->getInitSegment()` -/
  getInitSegment : Nat → RepId → Option Segment
  /-- `rep->needsIndex()` -/
  needsIndex : Nat → RepId → Bool
  /-- `rep->getIndexSegment()` -/
  getIndexSegment : Nat → RepId → Option Segment
  /-- `segment->toChunk(resources, connManager, number, rep)` -/
  toChunk : Nat → Segment → Nat → RepId → Option Chunk
  /-- `segment->getDisplayTime()` -/
  getDisplayTime : Segment → Int
  /-- `rep->getPlaybackTimeDurationBySegmentNumber(number, &start, &duration)` -/
  getPlaybackTimeDurationBySegmentNumber : Nat → RepId → Nat → Option (Int × Int)
  /-- `rep->getSegmentNumberByTime(time, &number)` -/
  getSegmentNumberByTime : Nat → RepId → Int → Option Nat
  /-- `StreamFormat(p_peek, i_peek)`: format from a byte signature -/
  formatFromBytes : List Nat → SFormat
  /-- `StreamFormat(mimetype)`: format from a content-type string -/
  formatFromMime : String → SFormat
  /-- `bufferingLogic->getStartSegmentNumber(rep)` -/
  getStartSegmentNumber : Nat → RepId → Nat

/-- The tracker's persistent state (`SegmentTracker` data members),
plus the external world counter `w`. -/
structure TrackerState where
  hasAdaptationSet : Bool
  current : Position
  next : Position
  format : SFormat
  initializing : Bool
  first : Bool
  chunkssequence : List ChunkEntry
  w : Nat
deriving DecidableEq, Repr, Inhabited

/-- The `SegmentTracker` constructor: fresh cursors, `first` and
`initializing` set, format `Unknown`. -/
def mkTracker (hasAS : Bool) (w : Nat) : TrackerState :=
  { hasAdaptationSet := hasAS, current := Position.invalid, next := Position.invalid,
    format := SFormat.Unknown, initializing := true, first := true,
    chunkssequence := [], w := w }

/-- `SegmentTracker::reset`: notify a `RepresentationSwitch(current.rep,
null)`, then clear both cursors, the queued chunks, re-enter
`initializing` and forget the recorded format. -/
def resetTracker (st : TrackerState) : TrackerState × List Event :=
  ({ st with current := Position.invalid, next := Position.invalid,
             chunkssequence := [], initializing := true,
             format := SFormat.Unknown },
   [Event.RepresentationSwitch st.current.rep none])

/-- `SegmentTracker::~SegmentTracker`: the destructor just calls
`reset`; these are the events it emits. -/
def destroyTracker (st : TrackerState) : List Event :=
  (resetTracker st).2

/-- `SegmentTracker::getStartPosition`: pick a representation from the
logic, refresh it if stale (advancing the world), take the buffering
logic's start segment number, and report `RepresentationUpdated` when a
refresh succeeded. -/
def getStartPosition (env : Env) (w : Nat) : Position × Nat × List Event :=
  match env.getNextRepresentation none with
  | none => (Position.invalid, w, [])
  | some r =>
    if env.needsUpdate w r U64MAX = true then
      let upd := env.runLocalUpdates w r
      ({ rep := some r, number := env.getStartSegmentNumber (w + 1) r,
         init_sent := false, index_sent := false }, w + 1,
       if upd = true then [Event.RepresentationUpdated r] else [])
    else
      ({ rep := some r, number := env.getStartSegmentNumber w r,
         init_sent := false, index_sent := false }, w, [])

/-- First translation of the segment number into the candidate
representation's numbering (`translateSegmentNumber`, before any
refresh). -/
def firstTranslation (env : Env) (pos : Position) (w : Nat) (r2 : RepId) : Nat :=
  env.translateSegmentNumber w r2 pos.number pos.rep

/-- The world after the candidate's conditional refresh: the refresh
runs exactly when `needsUpdate` holds for the first translation. -/
def worldAfterSwitchTry (env : Env) (pos : Position) (w : Nat) (r2 : RepId) : Nat :=
  if env.needsUpdate w r2 (firstTranslation env pos w r2) = true then w + 1 else w

/-- The candidate's segment number after the one retry the code makes:
if the first translation failed (sentinel), translate again in the
post-refresh world, else keep the first result. -/
def translatedNumber (env : Env) (pos : Position) (w : Nat) (r2 : RepId) : Nat :=
  if firstTranslation env pos w r2 = U64MAX then
    env.translateSegmentNumber (worldAfterSwitchTry env pos w r2) r2 pos.number pos.rep
  else firstTranslation env pos w r2

/-- The switch-evaluation block of `prepareChunk` (the `temp` position):
ask the logic for a candidate; if it is a different representation,
translate the number (with one retry after a refresh) and cancel the
switch when the candidate is at the live edge
(`getMinAheadTime == 0`). -/
def switchCandidate (env : Env) (pos : Position) (w : Nat) : Position × Nat :=
  match env.getNextRepresentation pos.rep with
  | none => (Position.invalid, w)
  | some r2 =>
    if some r2 = pos.rep then
      ({ Position.invalid with rep := some r2 }, w)
    else
      let w1 := worldAfterSwitchTry env pos w r2
      let n2 := translatedNumber env pos w r2
      let temp : Position :=
        { rep := some r2, number := n2, init_sent := false, index_sent := false }
      if temp.isValid = true ∧ env.getMinAheadTime w1 r2 n2 = 0 then
        (Position.invalid, w1)
      else (temp, w1)

/-- The init stage of `prepareChunk` (lines 317-323): request the init
segment unless already sent; a missing init segment skips the stage by
advancing the position. -/
def stageInit (env : Env) (w : Nat) (r : RepId) (pos : Position) :
    Option Segment × Position :=
  if pos.init_sent = false then
    match env.getInitSegment w r with
    | some s => (some s, pos)
    | none => (none, pos.inc)
  else (none, pos)

/-- The init+index stage ladder of `prepareChunk` (lines 317-331):
after the init stage, request the index segment when still unsent and
needed; a missing index advances the position. -/
def stageLadder (env : Env) (w : Nat) (r : RepId) (pos : Position) :
    Option Segment × Position :=
  let s1 := stageInit env w r pos
  if s1.1.isNone = true ∧ s1.2.index_sent = false then
    match (if env.needsIndex w r = true then env.getIndexSegment w r else none) with
    | some s => (some s, s1.2)
    | none => (none, s1.2.inc)
  else s1

/-- Lines 311-347 of `prepareChunk`: resolve the media segment (which
corrects the number), walk the init/index stage ladder, open the chunk
and resolve timings. -/
def prepareFromPos (env : Env) (pos : Position) (w : Nat) : ChunkEntry :=
  match pos.rep with
  | none => ChunkEntry.empty
  | some r =>
    match env.getNextMediaSegment w r pos.number with
    | none => ChunkEntry.empty
    | some (dataseg, n2, _b_gap) =>
      let stage2 := stageLadder env w r { pos with number := n2 }
      let seg : Segment := stage2.1.getD dataseg
      match env.toChunk w seg stage2.2.number r with
      | none => ChunkEntry.empty
      | some ck =>
        let timing : Int × Int :=
          match env.getPlaybackTimeDurationBySegmentNumber w r stage2.2.number with
          | some (s, d) => (s + VLC_TS_0, d)
          | none => (VLC_TS_INVALID, 0)
        { chunk := some ck, pos := stage2.2, starttime := timing.1,
          duration := timing.2, displaytime := env.getDisplayTime dataseg }

/-- `SegmentTracker::prepareChunk`: cold start resolves a start
position; otherwise switching is vetoed unless the set is
segment-aligned and both init and index have been sent, and a valid
switch candidate replaces the position. -/
def prepareChunk (env : Env) (hasAS : Bool) (switch_allowed : Bool)
    (pos : Position) (w : Nat) : ChunkEntry × Nat × List Event :=
  if hasAS = false then (ChunkEntry.empty, w, [])
  else if pos.isValid = false then
    match getStartPosition env w with
    | (pos1, w1, evs) =>
      if pos1.isValid = false then (ChunkEntry.empty, w1, evs)
      else (prepareFromPos env pos1 w1, w1, evs)
  else
    let saEff : Bool :=
      if env.isSegmentAligned = false ∨ pos.init_sent = false ∨ pos.index_sent = false
      then false else switch_allowed
    let tw : Position × Nat :=
      if saEff = true then switchCandidate env pos w else (Position.invalid, w)
    let pos1 : Position := if tw.1.isValid = true then tw.1 else pos
    (prepareFromPos env pos1 tw.2, tw.2, [])

/-- `b_gap` as first computed in `getNextChunk`: the wanted number and
the delivered entry's number differ. -/
def gapFlag0 (st : TrackerState) (pos : Position) : Bool :=
  decide (st.next.number ≠ pos.number)

/-- `b_switched`: the delivered representation differs from the wanted
one, or there is no current representation yet. -/
def switchedFlag (st : TrackerState) (pos : Position) : Bool :=
  decide (st.next.rep ≠ pos.rep) || st.current.rep.isNone

/-- `b_discontinuity`: the chunk carries the flag and current is valid,
suppressed when `current.number == next.number`. -/
def discFlag (st : TrackerState) (ck : Chunk) : Bool :=
  let b := ck.discontinuity && st.current.isValid
  if b = true ∧ st.current.number = st.next.number then false else b

/-- The chunk format after byte-signature probing: sniff only when the
declared format is `Unknown`. -/
def probeFormat (env : Env) (ck : Chunk) : SFormat :=
  if ck.streamFormat = SFormat.Unknown then env.formatFromBytes ck.peekBytes
  else ck.streamFormat

/-- The tracker's recorded format after the mime-type fallback: when
both the declared format and the byte signature are inconclusive the
code overwrites the tracker's `format` member from the content type
(without any notification). -/
def mimeAdjustedFormat (env : Env) (ck : Chunk) (fmt : SFormat) : SFormat :=
  if ck.streamFormat = SFormat.Unknown ∧ probeFormat env ck = SFormat.Unknown
  then env.formatFromMime ck.contentType else fmt

/-- The chunk as returned to the caller: when probing happened, the
sniffed format (possibly still `Unknown`) is cached on the chunk via
`setStreamFormat`. -/
def outChunk (env : Env) (ck : Chunk) : Chunk :=
  if ck.streamFormat = SFormat.Unknown
  then { ck with streamFormat := probeFormat env ck } else ck

/-- Lines 379-454 of `getNextChunk`, given the valid front entry
`entry` with open chunk `ck` (the tracker's queue is `entry :: rest`). -/
def deliverChunk (env : Env) (st : TrackerState) (entry : ChunkEntry)
    (ck : Chunk) (rest : List ChunkEntry) :
    Option RChunk × TrackerState × List Event :=
  let pos := entry.pos
  let swEv : List Event :=
    if switchedFlag st pos = true
    then [Event.RepresentationSwitch st.next.rep pos.rep] else []
  let stA : TrackerState :=
    { st with initializing := switchedFlag st pos || st.initializing,
              current := pos, next := pos }
  if stA.format = SFormat.Unsupported then (none, stA, swEv)
  else
    let cf := probeFormat env ck
    let fmt1 := mimeAdjustedFormat env ck stA.format
    let fEv : List Event :=
      if cf ≠ fmt1 ∧ cf ≠ SFormat.Unknown then [Event.FormatChanged cf] else []
    let fmt2 : SFormat := if cf ≠ fmt1 ∧ cf ≠ SFormat.Unknown then cf else fmt1
    let gap : Bool := if stA.initializing = true then false else gapFlag0 st pos
    let gapEv : List Event := if gap = true then [Event.SegmentGap] else []
    let dEv : List Event :=
      if discFlag st ck = true
      then [Event.Discontinuity ck.discontinuitySequenceNumber] else []
    let segEv : List Event :=
      [Event.SegmentChanged env.adaptationSetId ck.discontinuitySequenceNumber
        entry.starttime entry.duration entry.displaytime]
    let stB : TrackerState :=
      { stA with format := fmt2, chunkssequence := rest, initializing := false,
                 next := if gap = true then stA.next else stA.next.inc }
    (some { wrapped := decide (ck.streamFormat = SFormat.Unknown),
            chunk := outChunk env ck }, stB,
     swEv ++ fEv ++ gapEv ++ dEv ++ segEv)

/-- Dequeue-and-deliver: an invalid front entry is dropped (null
return); a valid one goes through `deliverChunk`.  `evs1` are the
events already emitted while filling the queue. -/
def consumeFront (env : Env) (st : TrackerState) (entry : ChunkEntry)
    (rest : List ChunkEntry) (evs1 : List Event) :
    Option RChunk × TrackerState × List Event :=
  match entry.chunk with
  | none => (none, { st with chunkssequence := rest }, evs1)
  | some ck =>
    if entry.pos.isValid = false then
      (none, { st with chunkssequence := rest }, evs1)
    else
      let r := deliverChunk env st entry ck rest
      (r.1, r.2.1, evs1 ++ r.2.2)

/-- `SegmentTracker::getNextChunk`: guard, fill the single-slot
lookahead queue if empty, then consume its front. -/
def getNextChunk (env : Env) (sa : Bool) (st : TrackerState) :
    Option RChunk × TrackerState × List Event :=
  if st.hasAdaptationSet = false ∨ st.next.isValid = false then (none, st, [])
  else
    match st.chunkssequence with
    | [] =>
      let p := prepareChunk env st.hasAdaptationSet sa st.next st.w
      consumeFront env { st with chunkssequence := [p.1], w := p.2.1 } p.1 [] p.2.2
    | e :: rest => consumeFront env st e rest []

/-- The entry `getNextChunk` works on: the queue's front, or the entry
it would prepare when the queue is empty. -/
def deliveredEntry (env : Env) (sa : Bool) (st : TrackerState) : ChunkEntry :=
  match st.chunkssequence with
  | [] => (prepareChunk env st.hasAdaptationSet sa st.next st.w).1
  | e :: _ => e

/-- The delivered entry's chunk (defaulted when absent). -/
def deliveredChunk (env : Env) (sa : Bool) (st : TrackerState) : Chunk :=
  ((deliveredEntry env sa st).chunk).getD default

/-- `SegmentTracker::getPlaybackTime`. -/
def getPlaybackTime (env : Env) (st : TrackerState) (b_next : Bool) : Int :=
  let rep : Option RepId :=
    match st.current.rep with
    | some r => some r
    | none => env.getNextRepresentation none
  match rep with
  | none => 0
  | some r =>
    match env.getPlaybackTimeDurationBySegmentNumber st.w r
        (if b_next = true then st.next.number else st.current.number) with
    | some (t, _) => t
    | none => 0

/-- `SegmentTracker::setPosition`: optionally re-enter `initializing`,
invalidate `current`, set `next`, drop the queue, and emit
`PositionChanged` with the resulting playback time. -/
def setPosition (env : Env) (pos : Position) (restarted : Bool)
    (st : TrackerState) : TrackerState × List Event :=
  let st1 : TrackerState :=
    if restarted = true then { st with initializing := true } else st
  let st2 : TrackerState :=
    { st1 with current := Position.invalid, next := pos, chunkssequence := [] }
  (st2, [Event.PositionChanged (getPlaybackTime env st2 true)])

/-- The position `setPositionByTime` starts from:
`Position(current.rep, current.number)`, its rep replaced by the
logic's pick when that position is invalid. -/
def sptPos1 (env : Env) (st : TrackerState) : Position :=
  if (Position.mkPos st.current.rep st.current.number).isValid = true
  then Position.mkPos st.current.rep st.current.number
  else { Position.mkPos st.current.rep st.current.number with
           rep := env.getNextRepresentation none }

/-- `SegmentTracker::setPositionByTime`: resolve a representation
(current, else ask the logic), refresh it synchronously when stale
(hard failure aborts the seek), then map the time to a segment number;
commit via `setPosition` only when not `tryonly`. -/
def setPositionByTime (env : Env) (st : TrackerState) (time : Int)
    (restarted tryonly : Bool) : Bool × TrackerState × List Event :=
  let pos1 : Position := sptPos1 env st
  match pos1.rep with
  | none => (false, st, [])
  | some r =>
    if env.needsUpdate st.w r pos1.number = true then
      if env.runLocalUpdates st.w r = false then
        (false, { st with w := st.w + 1 }, [])
      else
        let st1 : TrackerState := { st with w := st.w + 1 }
        match env.getSegmentNumberByTime st1.w r time with
        | some n =>
          if tryonly = true then (true, st1, [Event.RepresentationUpdated r])
          else
            let r2 := setPosition env { pos1 with number := n } restarted st1
            (true, r2.1, Event.RepresentationUpdated r :: r2.2)
        | none => (false, st1, [Event.RepresentationUpdated r])
    else
      match env.getSegmentNumberByTime st.w r time with
      | some n =>
        if tryonly = true then (true, st, [])
        else
          let r2 := setPosition env { pos1 with number := n } restarted st
          (true, r2.1, r2.2)
      | none => (false, st, [])

/-- The representation `setPositionByTime` resolves: current when the
(flag-stripped) current position is valid, else the logic's pick. -/
def sptRep (env : Env) (st : TrackerState) : Option RepId :=
  if (Position.mkPos st.current.rep st.current.number).isValid = true
  then st.current.rep else env.getNextRepresentation none

/-- The refresh step of `setPositionByTime` succeeds: either no refresh
was needed or `runLocalUpdates` returned true. -/
def sptRefreshOk (env : Env) (st : TrackerState) (r : RepId) : Bool :=
  !(env.needsUpdate st.w r st.current.number) || env.runLocalUpdates st.w r

/-- The world in which `setPositionByTime` queries
`getSegmentNumberByTime`. -/
def sptWorld (env : Env) (st : TrackerState) (r : RepId) : Nat :=
  if env.needsUpdate st.w r st.current.number = true then st.w + 1 else st.w

/-- A concrete environment for witnesses: one representation `0`, no
init or index segments, media segments always available at the
requested number, chunks declaring format `Known 1`. -/
def envA : Env :=
  { isSegmentAligned := true
    adaptationSetId := 7
    getNextRepresentation := fun _ => some 0
    needsUpdate := fun _ _ _ => false
    runLocalUpdates := fun _ _ => true
    translateSegmentNumber := fun _ _ n _ => n
    getMinAheadTime := fun _ _ _ => 100
    getNextMediaSegment := fun _ _ n => some (n, n, false)
    getInitSegment := fun _ _ => none
    needsIndex := fun _ _ => false
    getIndexSegment := fun _ _ => none
    toChunk := fun _ _ _ _ =>
      some { discontinuity := false, discontinuitySequenceNumber := 0,
             streamFormat := SFormat.Known 1, contentType := "video/mp4",
             peekBytes := [] }
    getDisplayTime := fun _ => 0
    getPlaybackTimeDurationBySegmentNumber := fun _ _ _ => none
    getSegmentNumberByTime := fun _ _ _ => some 5
    formatFromBytes := fun _ => SFormat.Unknown
    formatFromMime := fun _ => SFormat.Unknown
    getStartSegmentNumber := fun _ _ => 10 }

/-- A fresh tracker over `envA` whose `next` cursor points at segment
10 of representation 0. -/
def stA : TrackerState :=
  { mkTracker true 0 with
      next := { rep := some 0, number := 10, init_sent := false, index_sent := false } }

/-- Environment for the switch-abandonment witness: from representation
0 the logic proposes representation 1, translation succeeds but the
candidate is at the live edge (`getMinAheadTime = 0`). -/
def envB : Env :=
  { envA with
      getNextRepresentation := fun c => if c = some 0 then some 1 else some 0
      getMinAheadTime := fun _ _ _ => 0 }

/-- A mid-stream position (both stages sent) used by the switch
witnesses. -/
def posB : Position :=
  { rep := some 0, number := 10, init_sent := true, index_sent := true }

/-- Environment for the format-fallback counterexample: chunks declare
`Unknown`, byte sniffing is inconclusive, and the content-type string
resolves to `Known 3`. -/
def envC : Env :=
  { envA with
      toChunk := fun _ _ _ _ =>
        some { discontinuity := false, discontinuitySequenceNumber := 0,
               streamFormat := SFormat.Unknown, contentType := "video/mp2t",
               peekBytes := [1, 2] }
      formatFromBytes := fun _ => SFormat.Unknown
      formatFromMime := fun s => if s = "video/mp2t" then SFormat.Known 3 else SFormat.Unknown }

/-- `stA` with the terminal `Unsupported` format recorded. -/
def stU : TrackerState :=
  { stA with format := SFormat.Unsupported }

/-- The effective gap flag of a delivery: the number mismatch, suppressed
when the tracker is (or just became, through a switch) initializing. -/
def dGap (st : TrackerState) (pos : Position) : Bool :=
  !(switchedFlag st pos || st.initializing) && gapFlag0 st pos

/-- The tracker's recorded format after a successful delivery. -/
def dFmt (env : Env) (st : TrackerState) (ck : Chunk) : SFormat :=
  if probeFormat env ck ≠ mimeAdjustedFormat env ck st.format ∧
     probeFormat env ck ≠ SFormat.Unknown
  then probeFormat env ck else mimeAdjustedFormat env ck st.format

/-- The events a successful delivery emits, in order: representation
switch, format change, gap, discontinuity, segment change. -/
def dEvs (env : Env) (st : TrackerState) (entry : ChunkEntry) (ck : Chunk) : List Event :=
  (if switchedFlag st entry.pos = true
   then [Event.RepresentationSwitch st.next.rep entry.pos.rep] else []) ++
  (if probeFormat env ck ≠ mimeAdjustedFormat env ck st.format ∧
      probeFormat env ck ≠ SFormat.Unknown
   then [Event.FormatChanged (probeFormat env ck)] else []) ++
  (if dGap st entry.pos = true then [Event.SegmentGap] else []) ++
  (if discFlag st ck = true then [Event.Discontinuity ck.discontinuitySequenceNumber] else []) ++
  [Event.SegmentChanged env.adaptationSetId ck.discontinuitySequenceNumber
    entry.starttime entry.duration entry.displaytime]

/-- The tracker state after the queue-fill step of `getNextChunk`. -/
def stQ (env : Env) (sa : Bool) (st : TrackerState) : TrackerState :=
  match st.chunkssequence with
  | [] => { st with chunkssequence := [(prepareChunk env st.hasAdaptationSet sa st.next st.w).1],
                    w := (prepareChunk env st.hasAdaptationSet sa st.next st.w).2.1 }
  | _ :: _ => st

/-- The queue remainder behind the entry `getNextChunk` consumes. -/
def restQ (st : TrackerState) : List ChunkEntry :=
  match st.chunkssequence with
  | [] => []
  | _ :: r => r

/-- The events emitted while filling the queue (from `prepareChunk`). -/
def evs1Q (env : Env) (sa : Bool) (st : TrackerState) : List Event :=
  match st.chunkssequence with
  | [] => (prepareChunk env st.hasAdaptationSet sa st.next st.w).2.2
  | _ :: _ => []

theorem Position.inc_rep (p : Position) : p.inc.rep = p.rep := by
  unfold Position.inc
  repeat' split
  all_goals rfl

theorem stageInit_rep (env : Env) (w : Nat) (r : RepId) (pos : Position) :
    (stageInit env w r pos).2.rep = pos.rep := by
  unfold stageInit
  repeat' split
  all_goals simp [Position.inc_rep]

theorem stageLadder_rep (env : Env) (w : Nat) (r : RepId) (pos : Position) :
    (stageLadder env w r pos).2.rep = pos.rep := by
  simp only [stageLadder]
  split
  · split
    · simp [stageInit_rep]
    · simp [Position.inc_rep, stageInit_rep]
  · simp [stageInit_rep]

theorem prepareFromPos_rep (env : Env) (pos : Position) (w : Nat) :
    prepareFromPos env pos w = ChunkEntry.empty ∨
    (prepareFromPos env pos w).pos.rep = pos.rep := by
  simp only [prepareFromPos]
  split
  · exact Or.inl rfl
  · split
    · exact Or.inl rfl
    · split
      · exact Or.inl rfl
      · right
        have h := stageLadder_rep env w
        simp_all [stageLadder_rep]

/-- Claim C2 counterexample: the claim quantifies over every fresh valid
position, but at `start = 2 ^ 64 - 2` the third advance lands the 64-bit
segment number on the `U64MAX` sentinel, the position becomes invalid,
and the fourth advance is a no-op: the number stays `start + 1` instead
of reaching `start + 2`. -/
theorem position_advance_boundary_cex :
    (Position.mkPos (some 0) (2 ^ 64 - 2)).isValid = true ∧
    ((Position.mkPos (some 0) (2 ^ 64 - 2)).inc.inc.inc.number = 2 ^ 64 - 2 + 1) ∧
    ((Position.mkPos (some 0) (2 ^ 64 - 2)).inc.inc.inc.inc.number ≠ 2 ^ 64 - 2 + 2) := by
  decide

/-- Claim C2 (amended): provided `start + 2 < 2 ^ 64` (so the increments
stay clear of the sentinel), advancing a fresh valid position proceeds in
the fixed stage order: the first advance sets `init_sent`, the second
sets `index_sent`, the third yields `number = start + 1` and the fourth
`number = start + 2` with both flags still set; moreover an advance never
resets either flag. -/
theorem position_advance_stages (r : RepId) (start : Nat) (h : start + 2 < 2 ^ 64) :
    (Position.mkPos (some r) start).isValid = true ∧
    (Position.mkPos (some r) start).inc =
      { rep := some r, number := start, init_sent := true, index_sent := false } ∧
    (Position.mkPos (some r) start).inc.inc =
      { rep := some r, number := start, init_sent := true, index_sent := true } ∧
    (Position.mkPos (some r) start).inc.inc.inc =
      { rep := some r, number := start + 1, init_sent := true, index_sent := true } ∧
    (Position.mkPos (some r) start).inc.inc.inc.inc =
      { rep := some r, number := start + 2, init_sent := true, index_sent := true } ∧
    (∀ q : Position, q.init_sent = true → q.inc.init_sent = true) ∧
    (∀ q : Position, q.index_sent = true → q.inc.index_sent = true) := by
  have h1 : start ≠ U64MAX := by unfold U64MAX; omega
  have h2 : start + 1 ≠ U64MAX := by unfold U64MAX; omega
  have h3 : (start + 1) % 2 ^ 64 = start + 1 := Nat.mod_eq_of_lt (by omega)
  have h4 : (start + 1 + 1) % 2 ^ 64 = start + 2 := Nat.mod_eq_of_lt (by omega)
  refine ⟨?_, ?_, ?_, ?_, ?_, ?_, ?_⟩
  · simp [Position.mkPos, Position.isValid, h1]
  · simp [Position.mkPos, Position.inc, Position.isValid, h1]
  · simp [Position.mkPos, Position.inc, Position.isValid, h1]
  · simp [Position.mkPos, Position.inc, Position.isValid, h1, h3]
    omega
  · simp [Position.mkPos, Position.inc, Position.isValid, h1]
    have h3' : (start + 1) % 18446744073709551616 = start + 1 := by omega
    rw [h3']
    rw [if_neg (by unfold U64MAX; omega)]
    simp [Position.mk.injEq]
    omega
  · intro q hq
    unfold Position.inc
    repeat' split
    all_goals simp_all
  · intro q hq
    unfold Position.inc
    repeat' split
    all_goals simp_all

/-- Witness for the amended claim C2 at the concrete start number 5. -/
theorem position_advance_stages_witness :
    (Position.mkPos (some 0) 5).inc.inc.inc.inc =
      { rep := some 0, number := 7, init_sent := true, index_sent := true } :=
  (position_advance_stages 0 5 (by decide)).2.2.2.2.1

/-- Claim C4: in `prepareChunk` a representation switch is considered
only when the adaptation set is segment-aligned and both `init_sent` and
`index_sent` hold for the input position; when any of these fails the
`switch_allowed` argument is overridden to false (the call behaves
exactly as if `switch_allowed = false`), so in particular any valid
entry produced keeps the input position's representation. -/
theorem prepareChunk_switch_veto (env : Env) (hasAS switch_allowed : Bool)
    (pos : Position) (w : Nat)
    (h : env.isSegmentAligned = false ∨ pos.init_sent = false ∨ pos.index_sent = false) :
    prepareChunk env hasAS switch_allowed pos w = prepareChunk env hasAS false pos w ∧
    (pos.isValid = true → hasAS = true →
      (prepareChunk env hasAS switch_allowed pos w).1 = ChunkEntry.empty ∨
      (prepareChunk env hasAS switch_allowed pos w).1.pos.rep = pos.rep) := by
  constructor
  · simp only [prepareChunk]
    split
    · rfl
    · split
      · rfl
      · simp [h]
  · intro hv hAS
    simp only [prepareChunk, hAS, hv]
    simp [h, Bool.true_eq_false]
    exact prepareFromPos_rep env pos w

/-- Witness for claim C4: a switch requested with `index_sent = false`
behaves as if switching were disallowed. -/
theorem prepareChunk_switch_veto_witness :
    prepareChunk envA true true
        { rep := some 0, number := 10, init_sent := true, index_sent := false } 0 =
      prepareChunk envA true false
        { rep := some 0, number := 10, init_sent := true, index_sent := false } 0 :=
  (prepareChunk_switch_veto envA true true
    { rep := some 0, number := 10, init_sent := true, index_sent := false } 0
    (Or.inr (Or.inr rfl))).1

/-- Claim C5: in `prepareChunk`, when a different candidate
representation is selected and either the segment-number translation
still yields the sentinel after the one retry following a refresh, or
the candidate reports `getMinAheadTime = 0` at the translated number,
the switch is abandoned and the chunk is prepared from the original
input position (same representation and segment number). -/
theorem prepareChunk_switch_abandoned (env : Env) (pos : Position) (w : Nat) (r2 : RepId)
    (hv : pos.isValid = true) (ha : env.isSegmentAligned = true)
    (hi : pos.init_sent = true) (hx : pos.index_sent = true)
    (hc : env.getNextRepresentation pos.rep = some r2) (hne : some r2 ≠ pos.rep)
    (hab : translatedNumber env pos w r2 = U64MAX ∨
           (translatedNumber env pos w r2 ≠ U64MAX ∧
            env.getMinAheadTime (worldAfterSwitchTry env pos w r2) r2
              (translatedNumber env pos w r2) = 0)) :
    prepareChunk env true true pos w =
      (prepareFromPos env pos (worldAfterSwitchTry env pos w r2),
       worldAfterSwitchTry env pos w r2, []) := by
  simp only [prepareChunk, hv]
  simp only [Bool.true_eq_false, if_false, ite_false]
  simp [ha, hi, hx]
  simp only [switchCandidate, hc]
  rw [if_neg hne]
  rcases hab with hab | ⟨hab1, hab2⟩
  · have hval : (Position.isValid
        { rep := some r2, number := translatedNumber env pos w r2,
          init_sent := false, index_sent := false }) = false := by
      simp [Position.isValid, hab]
    simp [hval, Position.isValid]
    simp_all [Position.isValid]
  · have hval : (Position.isValid
        { rep := some r2, number := translatedNumber env pos w r2,
          init_sent := false, index_sent := false }) = true := by
      simp [Position.isValid, hab1]
    simp [hval, hab2, Position.isValid, Position.invalid]
    simp [hab1]

/-- Witness for claim C5: candidate representation 1 is at the live
edge (`getMinAheadTime = 0`), so the switch is abandoned. -/
theorem prepareChunk_switch_abandoned_witness :
    prepareChunk envB true true posB 0 =
      (prepareFromPos envB posB (worldAfterSwitchTry envB posB 0 1),
       worldAfterSwitchTry envB posB 0 1, []) :=
  prepareChunk_switch_abandoned envB posB 0 1 (by decide) (by decide) (by decide)
    (by decide) (by decide) (by decide)
    (Or.inr ⟨by decide, by decide⟩)

/-- Claim C10: every `reset` (and hence the destructor, which only
calls `reset`) synchronously emits exactly one `RepresentationSwitch`
event with `prev` = the current representation (possibly null) and
`next` = null, and clears both cursors, the queued chunks, the recorded
format, and re-enters the initializing state. -/
theorem reset_emits_representation_switch (st : TrackerState) :
    (resetTracker st).2 = [Event.RepresentationSwitch st.current.rep none] ∧
    destroyTracker st = [Event.RepresentationSwitch st.current.rep none] ∧
    (resetTracker st).1.current = Position.invalid ∧
    (resetTracker st).1.next = Position.invalid ∧
    (resetTracker st).1.chunkssequence = [] ∧
    (resetTracker st).1.format = SFormat.Unknown ∧
    (resetTracker st).1.initializing = true := by
  simp [resetTracker, destroyTracker]


theorem sptPos1_rep (env : Env) (st : TrackerState) :
    (sptPos1 env st).rep = sptRep env st := by
  unfold sptPos1 sptRep
  split <;> simp [Position.mkPos]

theorem sptPos1_number (env : Env) (st : TrackerState) :
    (sptPos1 env st).number = st.current.number := by
  unfold sptPos1
  split <;> simp [Position.mkPos]

theorem setPositionByTime_true_iff (env : Env) (st : TrackerState) (time : Int)
    (restarted tryonly : Bool) :
    ((setPositionByTime env st time restarted tryonly).1 = true ↔
      ∃ r, sptRep env st = some r ∧ sptRefreshOk env st r = true ∧
        (env.getSegmentNumberByTime (sptWorld env st r) r time).isSome = true) := by
  rw [← sptPos1_rep]
  simp only [setPositionByTime]
  rcases h : (sptPos1 env st).rep with _ | r
  · simp
  · simp only [sptPos1_number, sptPos1_rep] at h ⊢
    unfold sptRefreshOk sptWorld
    by_cases hupd : env.needsUpdate st.w r st.current.number = true
    · by_cases hrun : env.runLocalUpdates st.w r = true
      · rcases hn : env.getSegmentNumberByTime (st.w + 1) r time with _ | n
        · simp [h, hupd, hrun, hn]
        · cases tryonly <;> simp [h, hupd, hrun, hn]
      · simp [h, hupd, hrun, Bool.not_eq_true] at *
    · rw [Bool.not_eq_true] at hupd
      rcases hn : env.getSegmentNumberByTime st.w r time with _ | n
      · simp [h, hupd, hn]
      · cases tryonly <;> simp [h, hupd, hn]

/-- Claim C9: `setPositionByTime` returns false when no representation
can be resolved or a required synchronous refresh fails, and otherwise
returns true exactly when the representation maps the time to a segment
number; the returned boolean is the same for `tryonly = true` and
`tryonly = false`. -/
theorem setPositionByTime_result (env : Env) (st : TrackerState) (time : Int)
    (restarted tryonly : Bool) :
    (setPositionByTime env st time restarted tryonly).1 =
      (setPositionByTime env st time restarted false).1 ∧
    ((setPositionByTime env st time restarted tryonly).1 = true ↔
      ∃ r, sptRep env st = some r ∧ sptRefreshOk env st r = true ∧
        (env.getSegmentNumberByTime (sptWorld env st r) r time).isSome = true) := by
  refine ⟨?_, setPositionByTime_true_iff env st time restarted tryonly⟩
  have h1 := setPositionByTime_true_iff env st time restarted tryonly
  have h2 := setPositionByTime_true_iff env st time restarted false
  cases hA : (setPositionByTime env st time restarted tryonly).1 <;>
    cases hB : (setPositionByTime env st time restarted false).1 <;>
      simp_all
  rcases h2 with ⟨r, hr, hok, hs⟩
  simp [h1 r hr hok] at hs

theorem deliverChunk_unsupported_eq (env : Env) (st : TrackerState) (entry : ChunkEntry)
    (ck : Chunk) (rest : List ChunkEntry) (h : st.format = SFormat.Unsupported) :
    deliverChunk env st entry ck rest =
      (none,
       { st with initializing := switchedFlag st entry.pos || st.initializing,
                 current := entry.pos, next := entry.pos },
       if switchedFlag st entry.pos = true
       then [Event.RepresentationSwitch st.next.rep entry.pos.rep] else []) := by
  unfold deliverChunk
  simp [h]

theorem deliverChunk_ok_eq (env : Env) (st : TrackerState) (entry : ChunkEntry)
    (ck : Chunk) (rest : List ChunkEntry) (h : st.format ≠ SFormat.Unsupported) :
    deliverChunk env st entry ck rest =
      (some { wrapped := decide (ck.streamFormat = SFormat.Unknown),
              chunk := outChunk env ck },
       { st with initializing := false, current := entry.pos,
                 next := if dGap st entry.pos = true then entry.pos else entry.pos.inc,
                 format := dFmt env st ck, chunkssequence := rest },
       dEvs env st entry ck) := by
  unfold deliverChunk dEvs dFmt dGap
  simp only [h]
  by_cases hsw : (switchedFlag st entry.pos || st.initializing) = true <;>
    by_cases hg : gapFlag0 st entry.pos = true <;>
      simp_all
  rcases hsw with hsw | hsw <;> simp [hsw]

theorem getNextChunk_eq_consume (env : Env) (sa : Bool) (st : TrackerState)
    (hA : st.hasAdaptationSet = true) (hN : st.next.isValid = true) :
    getNextChunk env sa st =
      consumeFront env (stQ env sa st) (deliveredEntry env sa st) (restQ st)
        (evs1Q env sa st) := by
  unfold getNextChunk stQ restQ evs1Q deliveredEntry
  simp only [hA, hN]
  cases st.chunkssequence <;> simp

theorem stQ_fields (env : Env) (sa : Bool) (st : TrackerState) :
    (stQ env sa st).current = st.current ∧ (stQ env sa st).next = st.next ∧
    (stQ env sa st).initializing = st.initializing ∧
    (stQ env sa st).format = st.format ∧
    (stQ env sa st).hasAdaptationSet = st.hasAdaptationSet := by
  unfold stQ
  cases st.chunkssequence <;> simp

theorem getNextChunk_some_guard (env : Env) (sa : Bool) (st : TrackerState)
    (h : (getNextChunk env sa st).1.isSome = true) :
    st.hasAdaptationSet = true ∧ st.next.isValid = true := by
  by_cases hA : st.hasAdaptationSet = true
  · by_cases hN : st.next.isValid = true
    · exact ⟨hA, hN⟩
    · unfold getNextChunk at h
      simp [hA, hN] at h
  · unfold getNextChunk at h
    simp [hA] at h

theorem consumeFront_some (env : Env) (st : TrackerState) (entry : ChunkEntry)
    (rest : List ChunkEntry) (evs1 : List Event)
    (h : (consumeFront env st entry rest evs1).1.isSome = true) :
    ∃ ck, entry.chunk = some ck ∧ entry.pos.isValid = true ∧
      st.format ≠ SFormat.Unsupported ∧
      consumeFront env st entry rest evs1 =
        ((deliverChunk env st entry ck rest).1, (deliverChunk env st entry ck rest).2.1,
         evs1 ++ (deliverChunk env st entry ck rest).2.2) := by
  unfold consumeFront at h ⊢
  rcases hck : entry.chunk with _ | ck
  · simp [hck] at h
  · simp only [hck] at h ⊢
    by_cases hv : entry.pos.isValid = false
    · simp [hv] at h
    · rw [Bool.not_eq_false] at hv
      refine ⟨ck, rfl, hv, ?_, ?_⟩
      · intro hU
        rw [deliverChunk_unsupported_eq env st entry ck rest hU] at h
        simp [hv] at h
      · simp [hv]

theorem getStartPosition_events (env : Env) (w : Nat) :
    ∀ e ∈ (getStartPosition env w).2.2, ∃ r, e = Event.RepresentationUpdated r := by
  unfold getStartPosition
  repeat' split
  all_goals simp_all

theorem prepareChunk_events (env : Env) (hasAS sa : Bool) (pos : Position) (w : Nat) :
    ∀ e ∈ (prepareChunk env hasAS sa pos w).2.2, ∃ r, e = Event.RepresentationUpdated r := by
  unfold prepareChunk
  split
  · simp
  · split
    · rcases hgs : getStartPosition env w with ⟨pos1, w1, evs⟩
      have hev := getStartPosition_events env w
      rw [hgs] at hev
      split
      split <;> simp_all
    · simp

theorem evs1Q_events (env : Env) (sa : Bool) (st : TrackerState) :
    ∀ e ∈ evs1Q env sa st, ∃ r, e = Event.RepresentationUpdated r := by
  unfold evs1Q
  cases st.chunkssequence
  · exact prepareChunk_events env st.hasAdaptationSet sa st.next st.w
  · simp

theorem dEvs_gap_mem (env : Env) (st : TrackerState) (entry : ChunkEntry) (ck : Chunk) :
    Event.SegmentGap ∈ dEvs env st entry ck ↔ dGap st entry.pos = true := by
  unfold dEvs
  by_cases h1 : switchedFlag st entry.pos = true <;>
    by_cases h2 : probeFormat env ck ≠ mimeAdjustedFormat env ck st.format ∧
        probeFormat env ck ≠ SFormat.Unknown <;>
      by_cases h3 : dGap st entry.pos = true <;>
        by_cases h4 : discFlag st ck = true <;>
          simp [h1, h2, h3, h4]

theorem dEvs_disc_any (env : Env) (st : TrackerState) (entry : ChunkEntry) (ck : Chunk) :
    (dEvs env st entry ck).any isDiscontinuityEv = true ↔ discFlag st ck = true := by
  unfold dEvs
  by_cases h1 : switchedFlag st entry.pos = true <;>
    by_cases h2 : probeFormat env ck ≠ mimeAdjustedFormat env ck st.format ∧
        probeFormat env ck ≠ SFormat.Unknown <;>
      by_cases h3 : dGap st entry.pos = true <;>
        by_cases h4 : discFlag st ck = true <;>
          simp [h1, h2, h3, h4, isDiscontinuityEv]

theorem dEvs_disc_mem (env : Env) (st : TrackerState) (entry : ChunkEntry) (ck : Chunk)
    (h : discFlag st ck = true) :
    Event.Discontinuity ck.discontinuitySequenceNumber ∈ dEvs env st entry ck := by
  unfold dEvs
  simp [h]

theorem dEvs_fmt_any (env : Env) (st : TrackerState) (entry : ChunkEntry) (ck : Chunk) :
    (dEvs env st entry ck).any isFormatChangedEv = true ↔
      (probeFormat env ck ≠ mimeAdjustedFormat env ck st.format ∧
       probeFormat env ck ≠ SFormat.Unknown) := by
  unfold dEvs
  by_cases h1 : switchedFlag st entry.pos = true <;>
    by_cases h2 : probeFormat env ck ≠ mimeAdjustedFormat env ck st.format ∧
        probeFormat env ck ≠ SFormat.Unknown <;>
      by_cases h3 : dGap st entry.pos = true <;>
        by_cases h4 : discFlag st ck = true <;>
          simp [h1, h2, h3, h4, isFormatChangedEv]

theorem consumeFront_cases (env : Env) (st : TrackerState) (entry : ChunkEntry)
    (rest : List ChunkEntry) (evs1 : List Event) :
    (entry.isValid = false ∧
     consumeFront env st entry rest evs1 =
       (none, { st with chunkssequence := rest }, evs1)) ∨
    (∃ ck, entry.chunk = some ck ∧ entry.pos.isValid = true ∧
     consumeFront env st entry rest evs1 =
       ((deliverChunk env st entry ck rest).1, (deliverChunk env st entry ck rest).2.1,
        evs1 ++ (deliverChunk env st entry ck rest).2.2)) := by
  unfold consumeFront
  rcases hck : entry.chunk with _ | ck
  · left
    constructor
    · simp [ChunkEntry.isValid, hck]
    · simp [hck]
  · by_cases hv : entry.pos.isValid = false
    · left
      constructor
      · simp [ChunkEntry.isValid, hck, hv]
      · simp [hck, hv]
    · right
      rw [Bool.not_eq_false] at hv
      exact ⟨ck, rfl, hv, by simp [hck, hv]⟩

theorem deliverChunk_no_gap_of_initializing (env : Env) (st : TrackerState)
    (entry : ChunkEntry) (ck : Chunk) (rest : List ChunkEntry)
    (h : st.initializing = true) :
    Event.SegmentGap ∉ (deliverChunk env st entry ck rest).2.2 := by
  by_cases hU : st.format = SFormat.Unsupported
  · rw [deliverChunk_unsupported_eq env st entry ck rest hU]
    split <;> simp
  · rw [deliverChunk_ok_eq env st entry ck rest hU]
    intro hm
    have hd := (dEvs_gap_mem env st entry ck).1 (by simpa using hm)
    unfold dGap at hd
    simp [h] at hd

theorem no_gap_in_updates (env : Env) (sa : Bool) (st : TrackerState) :
    Event.SegmentGap ∉ evs1Q env sa st := by
  intro hm
  obtain ⟨r, hr⟩ := evs1Q_events env sa st _ hm
  simp at hr

/-- Claim C3: while the tracker is in the initializing state — as it is
right after construction and right after `reset` — `getNextChunk` never
emits a `SegmentGap` event, whatever the underlying gap situation of
segment resolution is. -/
theorem getNextChunk_first_no_gap (env : Env) (sa : Bool) (st st0 : TrackerState)
    (b : Bool) (w : Nat) (h : st.initializing = true) :
    (mkTracker b w).initializing = true ∧
    (resetTracker st0).1.initializing = true ∧
    Event.SegmentGap ∉ (getNextChunk env sa st).2.2 := by
  refine ⟨rfl, rfl, ?_⟩
  by_cases hA : st.hasAdaptationSet = true
  · by_cases hN : st.next.isValid = true
    · rw [getNextChunk_eq_consume env sa st hA hN]
      rcases consumeFront_cases env (stQ env sa st) (deliveredEntry env sa st)
          (restQ st) (evs1Q env sa st) with ⟨_, heq⟩ | ⟨ck, _, _, heq⟩
      · rw [heq]
        exact no_gap_in_updates env sa st
      · rw [heq]
        intro hm
        rcases List.mem_append.1 (by simpa using hm) with hx | hx
        · exact no_gap_in_updates env sa st hx
        · have hinit : (stQ env sa st).initializing = true := by
            rw [(stQ_fields env sa st).2.2.1]
            exact h
          exact deliverChunk_no_gap_of_initializing env _ _ ck _ hinit hx
    · unfold getNextChunk
      simp [hA, hN]
  · unfold getNextChunk
    simp [hA]

/-- Claim C1: whenever `getNextChunk` returns a non-null chunk, the
tracker's current position equals the delivered entry's (valid)
position, and `next` was set to that same position and then advanced by
exactly one stage if and only if no `SegmentGap` was emitted (otherwise
`next` stays at the delivered position). -/
theorem getNextChunk_position_invariant (env : Env) (sa : Bool) (st : TrackerState)
    (h : (getNextChunk env sa st).1.isSome = true) :
    (getNextChunk env sa st).2.1.current.isValid = true ∧
    (getNextChunk env sa st).2.1.current = (deliveredEntry env sa st).pos ∧
    (getNextChunk env sa st).2.1.next =
      (if Event.SegmentGap ∈ (getNextChunk env sa st).2.2
       then (deliveredEntry env sa st).pos else (deliveredEntry env sa st).pos.inc) := by
  obtain ⟨hA, hN⟩ := getNextChunk_some_guard env sa st h
  rw [getNextChunk_eq_consume env sa st hA hN] at h ⊢
  obtain ⟨ck, hck, hv, hU, heq⟩ :=
    consumeFront_some env (stQ env sa st) (deliveredEntry env sa st) (restQ st)
      (evs1Q env sa st) h
  rw [heq]
  rw [deliverChunk_ok_eq env (stQ env sa st) (deliveredEntry env sa st) ck (restQ st) hU]
  have hmem : Event.SegmentGap ∈
      (evs1Q env sa st ++ dEvs env (stQ env sa st) (deliveredEntry env sa st) ck) ↔
      dGap (stQ env sa st) (deliveredEntry env sa st).pos = true := by
    rw [List.mem_append]
    constructor
    · rintro (hx | hx)
      · exact absurd hx (no_gap_in_updates env sa st)
      · exact (dEvs_gap_mem env (stQ env sa st) (deliveredEntry env sa st) ck).1 hx
    · intro hx
      exact Or.inr ((dEvs_gap_mem env (stQ env sa st) (deliveredEntry env sa st) ck).2 hx)
  refine ⟨by simpa using hv, by simp, ?_⟩
  simp only [hmem]

/-- Claim C6: once the tracker's recorded format is the `Unsupported`
tag, every `getNextChunk` call returns null and the format stays
`Unsupported` (only `reset` clears it back to `Unknown`), while both
position cursors are still advanced to the prepared entry's position
whenever a valid entry was available. -/
theorem getNextChunk_unsupported_null (env : Env) (sa : Bool) (st st0 : TrackerState)
    (h : st.format = SFormat.Unsupported) :
    (getNextChunk env sa st).1 = none ∧
    (getNextChunk env sa st).2.1.format = SFormat.Unsupported ∧
    (resetTracker st0).1.format = SFormat.Unknown ∧
    ((deliveredEntry env sa st).isValid = true → st.hasAdaptationSet = true →
      st.next.isValid = true →
      (getNextChunk env sa st).2.1.current = (deliveredEntry env sa st).pos ∧
      (getNextChunk env sa st).2.1.next = (deliveredEntry env sa st).pos) := by
  have hstq : (stQ env sa st).format = SFormat.Unsupported := by
    rw [(stQ_fields env sa st).2.2.2.1]
    exact h
  by_cases hA : st.hasAdaptationSet = true
  · by_cases hN : st.next.isValid = true
    · rw [getNextChunk_eq_consume env sa st hA hN]
      rcases consumeFront_cases env (stQ env sa st) (deliveredEntry env sa st)
          (restQ st) (evs1Q env sa st) with ⟨hinv, heq⟩ | ⟨ck, hck, hv, heq⟩
      · rw [heq]
        refine ⟨rfl, hstq, rfl, ?_⟩
        intro hval
        rw [hval] at hinv
        simp at hinv
      · rw [heq]
        rw [deliverChunk_unsupported_eq env (stQ env sa st) (deliveredEntry env sa st)
          ck (restQ st) hstq]
        exact ⟨rfl, hstq, rfl, fun _ _ _ => ⟨rfl, rfl⟩⟩
    · unfold getNextChunk
      simp [hA, hN, h, resetTracker]
  · unfold getNextChunk
    simp [hA, h, resetTracker]

/-- Witness for claim C6: with format `Unsupported` recorded, the call
returns null yet the current cursor advanced to the prepared entry's
position. -/
theorem getNextChunk_unsupported_null_witness :
    (getNextChunk envA true stU).1 = none ∧
    (getNextChunk envA true stU).2.1.current = (deliveredEntry envA true stU).pos :=
  ⟨(getNextChunk_unsupported_null envA true stU stA rfl).1,
   ((getNextChunk_unsupported_null envA true stU stA rfl).2.2.2 (by decide) rfl
      (by decide)).1⟩

theorem discFlag_iff (st : TrackerState) (ck : Chunk) :
    discFlag st ck = true ↔
      (ck.discontinuity = true ∧ st.current.isValid = true ∧
       st.current.number ≠ st.next.number) := by
  unfold discFlag
  by_cases h1 : ck.discontinuity = true <;>
    by_cases h2 : st.current.isValid = true <;>
      by_cases h3 : st.current.number = st.next.number <;>
        simp [h1, h2, h3]

theorem no_disc_in_updates (env : Env) (sa : Bool) (st : TrackerState) :
    (evs1Q env sa st).any isDiscontinuityEv = false := by
  rw [List.any_eq_false]
  intro e he
  obtain ⟨r, hr⟩ := evs1Q_events env sa st e he
  simp [hr, isDiscontinuityEv]

/-- Claim C8: a delivering `getNextChunk` call emits a `Discontinuity`
event (carrying the chunk's discontinuity sequence number) if and only
if the chunk carries the discontinuity flag, the current position was
already valid, and `current.number` differed from `next.number` at the
start of the call. -/
theorem getNextChunk_discontinuity_iff (env : Env) (sa : Bool) (st : TrackerState)
    (h : (getNextChunk env sa st).1.isSome = true) :
    (((getNextChunk env sa st).2.2).any isDiscontinuityEv = true ↔
      ((deliveredChunk env sa st).discontinuity = true ∧ st.current.isValid = true ∧
       st.current.number ≠ st.next.number)) ∧
    (((getNextChunk env sa st).2.2).any isDiscontinuityEv = true →
      Event.Discontinuity (deliveredChunk env sa st).discontinuitySequenceNumber ∈
        (getNextChunk env sa st).2.2) := by
  obtain ⟨hA, hN⟩ := getNextChunk_some_guard env sa st h
  rw [getNextChunk_eq_consume env sa st hA hN] at h ⊢
  obtain ⟨ck, hck, hv, hU, heq⟩ :=
    consumeFront_some env (stQ env sa st) (deliveredEntry env sa st) (restQ st)
      (evs1Q env sa st) h
  rw [heq]
  rw [deliverChunk_ok_eq env (stQ env sa st) (deliveredEntry env sa st) ck (restQ st) hU]
  have hdc : deliveredChunk env sa st = ck := by
    unfold deliveredChunk
    rw [hck]
    rfl
  have hany : ((evs1Q env sa st ++ dEvs env (stQ env sa st) (deliveredEntry env sa st) ck).any
      isDiscontinuityEv = true) ↔ discFlag (stQ env sa st) ck = true := by
    rw [List.any_append, no_disc_in_updates env sa st, Bool.false_or]
    exact dEvs_disc_any env (stQ env sa st) (deliveredEntry env sa st) ck
  obtain ⟨hc, hn, _, _, _⟩ := stQ_fields env sa st
  constructor
  · simp only []
    rw [hany, hdc, discFlag_iff, hc, hn]
  · intro hm
    simp only [] at hm
    rw [hany] at hm
    rw [hdc]
    simp only []
    rw [List.mem_append]
    exact Or.inr (dEvs_disc_mem env (stQ env sa st) (deliveredEntry env sa st) ck hm)

theorem no_fmt_in_updates (env : Env) (sa : Bool) (st : TrackerState) :
    (evs1Q env sa st).any isFormatChangedEv = false := by
  rw [List.any_eq_false]
  intro e he
  obtain ⟨r, hr⟩ := evs1Q_events env sa st e he
  simp [hr, isFormatChangedEv]

/-- Claim C7 (amended): on delivery the chunk format is resolved by
byte-signature sniffing only (when the declared format is `Unknown`),
and that sniffed-or-declared format — possibly still `Unknown` — is what
is cached on the returned chunk; when sniffing is inconclusive the
tracker's recorded format is silently overwritten from the content-type
string, and `FormatChanged` is emitted exactly when the sniffed-or-
declared chunk format differs from the (mime-adjusted) recorded format
and is not `Unknown`; hence a second chunk of the same format fires no
further `FormatChanged`. -/
theorem getNextChunk_format_resolution (env : Env) (sa : Bool) (st : TrackerState)
    (h : (getNextChunk env sa st).1.isSome = true) :
    (((getNextChunk env sa st).2.2).any isFormatChangedEv = true ↔
      (probeFormat env (deliveredChunk env sa st) ≠
         mimeAdjustedFormat env (deliveredChunk env sa st) st.format ∧
       probeFormat env (deliveredChunk env sa st) ≠ SFormat.Unknown)) ∧
    ((getNextChunk env sa st).1 =
      some { wrapped := decide ((deliveredChunk env sa st).streamFormat = SFormat.Unknown),
             chunk := outChunk env (deliveredChunk env sa st) }) ∧
    ((getNextChunk env sa st).2.1.format = dFmt env st (deliveredChunk env sa st)) := by
  obtain ⟨hA, hN⟩ := getNextChunk_some_guard env sa st h
  rw [getNextChunk_eq_consume env sa st hA hN] at h ⊢
  obtain ⟨ck, hck, hv, hU, heq⟩ :=
    consumeFront_some env (stQ env sa st) (deliveredEntry env sa st) (restQ st)
      (evs1Q env sa st) h
  rw [heq]
  rw [deliverChunk_ok_eq env (stQ env sa st) (deliveredEntry env sa st) ck (restQ st) hU]
  have hdc : deliveredChunk env sa st = ck := by
    unfold deliveredChunk
    rw [hck]
    rfl
  have hfq : (stQ env sa st).format = st.format := (stQ_fields env sa st).2.2.2.1
  have hany : ((evs1Q env sa st ++ dEvs env (stQ env sa st) (deliveredEntry env sa st) ck).any
      isFormatChangedEv = true) ↔
      (probeFormat env ck ≠ mimeAdjustedFormat env ck (stQ env sa st).format ∧
       probeFormat env ck ≠ SFormat.Unknown) := by
    rw [List.any_append, no_fmt_in_updates env sa st, Bool.false_or]
    exact dEvs_fmt_any env (stQ env sa st) (deliveredEntry env sa st) ck
  refine ⟨?_, ?_, ?_⟩
  · simp only []
    rw [hany, hdc, hfq]
  · simp [hdc]
  · simp only []
    unfold dFmt
    rw [hdc, hfq]

/-- Claim C7 counterexample: with declared format `Unknown`,
inconclusive byte sniffing, and a content type resolving to `Known 3`,
the mime-resolved format `Known 3` differs from the previously recorded
`Unknown` and is itself not `Unknown`, yet no `FormatChanged` event is
emitted, and the format cached on the returned chunk is `Unknown`, not
the mime-resolved one — the tracker's recorded format silently becomes
`Known 3`. -/
theorem format_mime_fallback_cex :
    stA.format = SFormat.Unknown ∧
    envC.formatFromMime (deliveredChunk envC true stA).contentType = SFormat.Known 3 ∧
    envC.formatFromBytes (deliveredChunk envC true stA).peekBytes = SFormat.Unknown ∧
    (deliveredChunk envC true stA).streamFormat = SFormat.Unknown ∧
    (getNextChunk envC true stA).1.isSome = true ∧
    ((getNextChunk envC true stA).2.2).any isFormatChangedEv = false ∧
    ((getNextChunk envC true stA).1.map (fun rc => rc.chunk.streamFormat)) =
      some SFormat.Unknown ∧
    (getNextChunk envC true stA).2.1.format = SFormat.Known 3 := by
  decide

/-- Witness for the amended claim C7 on a concrete delivering call. -/
theorem getNextChunk_format_resolution_witness :
    ((getNextChunk envA true stA).2.2).any isFormatChangedEv = true ↔
      (probeFormat envA (deliveredChunk envA true stA) ≠
         mimeAdjustedFormat envA (deliveredChunk envA true stA) stA.format ∧
       probeFormat envA (deliveredChunk envA true stA) ≠ SFormat.Unknown) :=
  (getNextChunk_format_resolution envA true stA (by decide)).1

/-- Witness for claim C1 on a concrete delivering call. -/
theorem getNextChunk_position_invariant_witness :
    (getNextChunk envA true stA).2.1.current.isValid = true ∧
    (getNextChunk envA true stA).2.1.current = (deliveredEntry envA true stA).pos ∧
    (getNextChunk envA true stA).2.1.next =
      (if Event.SegmentGap ∈ (getNextChunk envA true stA).2.2
       then (deliveredEntry envA true stA).pos
       else (deliveredEntry envA true stA).pos.inc) :=
  getNextChunk_position_invariant envA true stA (by decide)

/-- Witness for claim C3 on a freshly constructed tracker. -/
theorem getNextChunk_first_no_gap_witness :
    (mkTracker true 0).initializing = true ∧
    (resetTracker stA).1.initializing = true ∧
    Event.SegmentGap ∉ (getNextChunk envA true stA).2.2 :=
  getNextChunk_first_no_gap envA true stA stA true 0 rfl

/-- Witness for claim C8 on a concrete delivering call. -/
theorem getNextChunk_discontinuity_iff_witness :
    ((getNextChunk envA true stA).2.2).any isDiscontinuityEv = true ↔
      ((deliveredChunk envA true stA).discontinuity = true ∧
       stA.current.isValid = true ∧ stA.current.number ≠ stA.next.number) :=
  (getNextChunk_discontinuity_iff envA true stA (by decide)).1
